import Mathlib

/-!
Verification development for the SqueezySceney scene scaler
(src/main.py, src/scaler.py).

Modelling conventions of the shallow embedding:
  - Python Decimal values are modelled as rationals (ℚ): the program only
    ever adds and multiplies decimals, which is exact, and rounds to an
    integer via quantize(Decimal(1)), whose default context rounding is
    ROUND_HALF_EVEN.
  - Python int is ℤ, str is String, bool is Bool.
  - Opaque JSON payloads (flag maps, nested arrays) are a JVal tree.
  - Mutating methods become functions returning the updated value; the
    deepcopy-then-assign pattern of the source becomes a record update.
-/

/-- A JSON value, used for the opaque payloads the scaler carries through
(flag maps, actor data, tiles, templates, etc.) and for the raw parsed
scene documents consumed by Scene.create. -/
inductive JVal where
  | null : JVal
  | bool (b : Bool) : JVal
  | num (q : ℚ) : JVal
  | str (s : String) : JVal
  | arr (xs : List JVal) : JVal
  | obj (kvs : List (String × JVal)) : JVal

/-- The Python exception kinds the program can raise while building scenes:
TypeError (dataclass called with missing or unexpected keyword arguments,
or iterating a non-list) and orjson.JSONDecodeError. The source defines no
exception class of its own; in particular no MalformedSceneError exists. -/
inductive PyError where
  | typeError (msg : String) : PyError
  | jsonDecodeError : PyError
deriving DecidableEq

/-- Decimal.quantize(Decimal(1)) under the default decimal context, whose
rounding mode is ROUND_HALF_EVEN: round to the nearest integer, ties to
the even neighbour. -/
def quantizeHalfEven (q : ℚ) : ℤ :=
  if q - (⌊q⌋ : ℚ) < 1/2 then ⌊q⌋
  else if 1/2 < q - (⌊q⌋ : ℚ) then ⌊q⌋ + 1
  else if ⌊q⌋ % 2 = 0 then ⌊q⌋ else ⌊q⌋ + 1

/-- Token dataclass (scaler.py lines 15-51): a placed token with position
(x, y) and many non-positional display and vision fields. -/
structure Token where
  _id : String
  flags : JVal
  name : String
  displayName : ℤ
  img : String
  tint : Option String
  width : ℤ
  height : ℤ
  scale : ℚ
  x : ℤ
  y : ℤ
  elevation : ℤ
  lockRotation : Bool
  rotation : ℚ
  effects : List JVal
  hidden : Bool
  vision : Bool
  dimSight : ℤ
  brightSight : ℤ
  dimLight : ℤ
  brightLight : ℤ
  sightAngle : ℤ
  lightAngle : ℤ
  lightAlpha : ℚ
  lightAnimation : JVal
  actorId : String
  actorLink : Bool
  actorData : JVal
  disposition : ℤ
  displayBars : ℤ
  bar1 : JVal
  bar2 : JVal
  mirrorX : Option Bool
  mirrorY : Option Bool
  lightColor : Option String

/-- Wall dataclass (scaler.py lines 54-63): its geometry is the
four-integer array c = [x1, y1, x2, y2]. -/
structure Wall where
  _id : String
  flags : JVal
  c : List ℤ
  move : ℤ
  sense : ℤ
  door : ℤ
  ds : ℤ
  dir : Option ℤ

/-- Light dataclass (scaler.py lines 66-81): an ambient light at (x, y). -/
structure Light where
  _id : String
  flags : JVal
  t : String
  x : ℤ
  y : ℤ
  hidden : Bool
  rotation : ℚ
  dim : ℤ
  bright : ℤ
  angle : ℤ
  darknessThreshold : ℤ
  tintAlpha : ℚ
  lightAnimation : JVal
  tintColor : Option String

/-- Sound dataclass (scaler.py lines 84-96): an ambient sound at (x, y). -/
structure Sound where
  _id : String
  flags : JVal
  path : String
  repeat_ : Bool
  volume : ℚ
  type : String
  x : ℤ
  y : ℤ
  radius : ℚ
  easing : Bool

/-- Note dataclass (scaler.py lines 99-115): a map note at (x, y). -/
structure Note where
  _id : String
  flags : JVal
  entryId : String
  x : ℤ
  y : ℤ
  icon : String
  iconSize : ℤ
  iconTint : String
  text : String
  fontFamily : String
  fontSize : ℤ
  textAnchor : ℤ
  textColor : String

/-- Drawing dataclass (scaler.py lines 118-173): a drawing anchored at
(x, y) with its own width and height fields. -/
structure Drawing where
  _id : String
  flags : JVal
  type : String
  author : String
  x : ℤ
  y : ℤ
  width : ℚ
  height : ℚ
  rotation : ℚ
  z : ℤ
  hidden : Bool
  locked : Bool
  points : List JVal
  bezierFactor : ℤ
  fillType : ℤ
  fillColor : String
  fillAlpha : ℚ
  strokeWidth : ℤ
  strokeColor : String
  strokeAlpha : ℚ
  texture : String
  text : String
  fontFamily : String
  fontSize : ℤ
  textColor : String
  textAlpha : ℚ

/-- Point: a 2D coordinate with exact decimal components (scaler.py lines
176-230). -/
structure Point where
  x : ℚ
  y : ℚ

/-- Point._translate_point: the dilation formula
origin*(1-scale) + point*scale, per axis (scaler.py lines 182-186). -/
def Point.translate_point_static (origin : Point) (point : Point) (scale : ℚ) : Point :=
  let translated_x := origin.x * (1 - scale) + point.x * scale
  let translated_y := origin.y * (1 - scale) + point.y * scale
  Point.mk translated_x translated_y

/-- Point.translate_point: instance wrapper over the static formula
(scaler.py lines 188-189). -/
def Point.translate_point (self : Point) (origin : Point) (scale : ℚ) : Point :=
  Point.translate_point_static origin self scale

/-- Point.integer_x: self.x.quantize(Decimal(1)) as an int
(scaler.py lines 224-226). -/
def Point.integer_x (self : Point) : ℤ :=
  quantizeHalfEven self.x

/-- Point.integer_y: self.y.quantize(Decimal(1)) as an int
(scaler.py lines 228-230). -/
def Point.integer_y (self : Point) : ℤ :=
  quantizeHalfEven self.y

/-- Point.get_point_from_token (scaler.py lines 191-193). -/
def Point.get_point_from_token (token_data : Token) : Point :=
  Point.mk (token_data.x : ℚ) (token_data.y : ℚ)

/-- Point.get_points_from_walls (scaler.py lines 195-198): reads the two
endpoints (c[0], c[1]) and (c[2], c[3]).  Python indexing raises on a c
array shorter than four entries; the model is faithful for the documented
four-integer shape (getD is only ever read at defined indices there). -/
def Point.get_points_from_walls (wall_data : Wall) : Point × Point :=
  let coords := wall_data.c
  (Point.mk (coords.getD 0 0 : ℚ) (coords.getD 1 0 : ℚ),
   Point.mk (coords.getD 2 0 : ℚ) (coords.getD 3 0 : ℚ))

/-- Point.get_point_from_light (scaler.py lines 200-204). -/
def Point.get_point_from_light (light_data : Light) : Point :=
  Point.mk (light_data.x : ℚ) (light_data.y : ℚ)

/-- Point.get_point_from_sound (scaler.py lines 206-210). -/
def Point.get_point_from_sound (sound_data : Sound) : Point :=
  Point.mk (sound_data.x : ℚ) (sound_data.y : ℚ)

/-- Point.get_point_from_note (scaler.py lines 212-216). -/
def Point.get_point_from_note (note_data : Note) : Point :=
  Point.mk (note_data.x : ℚ) (note_data.y : ℚ)

/-- Point.get_point_from_drawing (scaler.py lines 218-222). -/
def Point.get_point_from_drawing (drawing_data : Drawing) : Point :=
  Point.mk (drawing_data.x : ℚ) (drawing_data.y : ℚ)

/-- Scene dataclass (scaler.py lines 233-321): the aggregate of one scene
document. -/
structure Scene where
  _id : String
  name : String
  folder : String
  sort : ℤ
  flags : JVal
  description : String
  navigation : Bool
  nav_order : ℤ
  nav_name : String
  active : Bool
  initial : JVal
  img : String
  thumb : String
  width : ℤ
  height : ℤ
  padding : ℤ
  background_color : String
  tiles : List JVal
  grid_type : ℤ
  grid : ℤ
  shift_x : ℤ
  shift_y : ℤ
  grid_color : String
  grid_alpha : ℚ
  grid_distance : ℤ
  grid_units : String
  tokens : List Token
  walls : List Wall
  token_vision : Bool
  fog_exploration : Bool
  lights : List Light
  global_light : Bool
  global_light_threshold : Option ℚ
  darkness : ℚ
  playlist : String
  sounds : List Sound
  templates : List JVal
  journal : String
  notes : List Note
  weather : String
  drawings : List Drawing
  size : Option JVal

/-- Scene.get_origin (scaler.py lines 370-373): half the grid shift,
Decimal(shift_x) * Decimal(0.5) per axis. -/
def Scene.get_origin (self : Scene) : Point :=
  let x := (self.shift_x : ℚ) * (1/2)
  let y := (self.shift_y : ℚ) * (1/2)
  Point.mk x y

/-- The loop body of Scene._scale_tokens (scaler.py lines 393-399):
deepcopy the token, then overwrite x and y with the rounded scaled point. -/
def Scene.scale_one_token (origin : Point) (scale : ℚ) (token : Token) : Token :=
  let token_point := Point.get_point_from_token token
  let scaled_token_point := token_point.translate_point origin scale
  { token with x := scaled_token_point.integer_x, y := scaled_token_point.integer_y }

/-- Scene._scale_tokens (scaler.py lines 391-400): replaces self.tokens
with the list of scaled copies. -/
def Scene._scale_tokens (self : Scene) (origin : Point) (scale : ℚ) : Scene :=
  { self with tokens := self.tokens.map (Scene.scale_one_token origin scale) }

/-- The loop body of Scene._scale_walls (scaler.py lines 404-412): scale
both endpoints independently and rebuild c as the flat four-entry list. -/
def Scene.scale_one_wall (origin : Point) (scale : ℚ) (wall : Wall) : Wall :=
  let wall_points := Point.get_points_from_walls wall
  let p1 := wall_points.1.translate_point origin scale
  let p2 := wall_points.2.translate_point origin scale
  { wall with c := [p1.integer_x, p1.integer_y, p2.integer_x, p2.integer_y] }

/-- Scene._scale_walls (scaler.py lines 402-413). -/
def Scene._scale_walls (self : Scene) (origin : Point) (scale : ℚ) : Scene :=
  { self with walls := self.walls.map (Scene.scale_one_wall origin scale) }

/-- The loop body of Scene._scale_lights (scaler.py lines 417-423). -/
def Scene.scale_one_light (origin : Point) (scale : ℚ) (light : Light) : Light :=
  let light_point := Point.get_point_from_light light
  let scaled_light_point := light_point.translate_point origin scale
  { light with x := scaled_light_point.integer_x, y := scaled_light_point.integer_y }

/-- Scene._scale_lights (scaler.py lines 415-424). -/
def Scene._scale_lights (self : Scene) (origin : Point) (scale : ℚ) : Scene :=
  { self with lights := self.lights.map (Scene.scale_one_light origin scale) }

/-- The loop body of Scene._scale_sounds (scaler.py lines 428-434). -/
def Scene.scale_one_sound (origin : Point) (scale : ℚ) (sound : Sound) : Sound :=
  let sound_point := Point.get_point_from_sound sound
  let scaled_sound_point := sound_point.translate_point origin scale
  { sound with x := scaled_sound_point.integer_x, y := scaled_sound_point.integer_y }

/-- Scene._scale_sounds (scaler.py lines 426-435). -/
def Scene._scale_sounds (self : Scene) (origin : Point) (scale : ℚ) : Scene :=
  { self with sounds := self.sounds.map (Scene.scale_one_sound origin scale) }

/-- The loop body of Scene._scale_notes (scaler.py lines 439-445). -/
def Scene.scale_one_note (origin : Point) (scale : ℚ) (note : Note) : Note :=
  let note_point := Point.get_point_from_note note
  let scaled_note_point := note_point.translate_point origin scale
  { note with x := scaled_note_point.integer_x, y := scaled_note_point.integer_y }

/-- Scene._scale_notes (scaler.py lines 437-446). -/
def Scene._scale_notes (self : Scene) (origin : Point) (scale : ℚ) : Scene :=
  { self with notes := self.notes.map (Scene.scale_one_note origin scale) }

/-- The loop body of Scene._scale_drawings (scaler.py lines 450-456):
only the anchor point (x, y) is overwritten; the drawing width and height
fields are left untouched. -/
def Scene.scale_one_drawing (origin : Point) (scale : ℚ) (drawing : Drawing) : Drawing :=
  let drawing_point := Point.get_point_from_drawing drawing
  let scaled_drawing_point := drawing_point.translate_point origin scale
  { drawing with x := scaled_drawing_point.integer_x, y := scaled_drawing_point.integer_y }

/-- Scene._scale_drawings (scaler.py lines 448-457). -/
def Scene._scale_drawings (self : Scene) (origin : Point) (scale : ℚ) : Scene :=
  { self with drawings := self.drawings.map (Scene.scale_one_drawing origin scale) }

/-- Scene.scale_scene (scaler.py lines 375-389): computes the origin once
from the pre-scaling shift values, scales the six entity collections in
source order about that origin, then rescales the five scalar sizing
fields with quantize(Decimal(1)). -/
def Scene.scale_scene (self : Scene) (scale : ℚ) : Scene :=
  let origin := self.get_origin
  let s1 := self._scale_tokens origin scale
  let s2 := s1._scale_walls origin scale
  let s3 := s2._scale_lights origin scale
  let s4 := s3._scale_sounds origin scale
  let s5 := s4._scale_notes origin scale
  let s6 := s5._scale_drawings origin scale
  { s6 with
      width := quantizeHalfEven ((s6.width : ℚ) * scale),
      height := quantizeHalfEven ((s6.height : ℚ) * scale),
      grid := quantizeHalfEven ((s6.grid : ℚ) * scale),
      shift_x := quantizeHalfEven ((s6.shift_x : ℚ) * scale),
      shift_y := quantizeHalfEven ((s6.shift_y : ℚ) * scale) }

/-- Python dict.get(key): none when the key is absent (scaler.py
Scene.create reads every top-level field this way). -/
def getKey (d : List (String × JVal)) (k : String) : Option JVal :=
  (d.find? (fun p => p.1 == k)).map (fun p => p.2)

/-- A Python dataclass called with keyword arguments, as in
Token(**token): succeeds exactly when every required field name is
supplied and every supplied key is a declared field; otherwise Python
raises TypeError.  The accepted raw record is the keyword map itself —
Scene.create performs no type checking of the values. -/
def dataclassKwargs (required optional : List String)
    (kvs : List (String × JVal)) : Except PyError (List (String × JVal)) :=
  if required.all (fun k => kvs.any (fun p => p.1 == k)) &&
     kvs.all (fun p => required.contains p.1 || optional.contains p.1)
  then .ok kvs
  else .error (.typeError "missing or unexpected keyword argument")

/-- One element of an entity list: Token(**token) requires the element to
be a JSON object (a mapping); any other value makes the ** expansion or
the iteration raise TypeError. -/
def parseEntity (required optional : List String) : JVal → Except PyError (List (String × JVal))
  | JVal.obj kvs => dataclassKwargs required optional kvs
  | _ => .error (.typeError "argument must be a mapping")

/-- A comprehension [Cls(**e) for e in scene_data.get(key, [])]
(scaler.py lines 352-366): an absent key defaults to the empty list; a
present non-array value fails with TypeError when iterated or expanded. -/
def parseEntityList (required optional : List String) :
    Option JVal → Except PyError (List (List (String × JVal)))
  | none => .ok []
  | some (JVal.arr xs) => xs.mapM (parseEntity required optional)
  | some _ => .error (.typeError "value is not a list of mappings")

/-- The dataclass field names of Token without a default (scaler.py
lines 15-48). -/
def Token.requiredFields : List String :=
  ["_id", "flags", "name", "displayName", "img", "tint", "width", "height",
   "scale", "x", "y", "elevation", "lockRotation", "rotation", "effects",
   "hidden", "vision", "dimSight", "brightSight", "dimLight", "brightLight",
   "sightAngle", "lightAngle", "lightAlpha", "lightAnimation", "actorId",
   "actorLink", "actorData", "disposition", "displayBars", "bar1", "bar2"]

/-- The Token fields with defaults (scaler.py lines 49-51). -/
def Token.optionalFields : List String := ["mirrorX", "mirrorY", "lightColor"]

/-- Wall required dataclass fields (scaler.py lines 56-62). -/
def Wall.requiredFields : List String :=
  ["_id", "flags", "c", "move", "sense", "door", "ds"]

/-- Wall fields with defaults (scaler.py line 63). -/
def Wall.optionalFields : List String := ["dir"]

/-- Light required dataclass fields (scaler.py lines 68-80). -/
def Light.requiredFields : List String :=
  ["_id", "flags", "t", "x", "y", "hidden", "rotation", "dim", "bright",
   "angle", "darknessThreshold", "tintAlpha", "lightAnimation"]

/-- Light fields with defaults (scaler.py line 81). -/
def Light.optionalFields : List String := ["tintColor"]

/-- Sound required dataclass fields (scaler.py lines 87-96). -/
def Sound.requiredFields : List String :=
  ["_id", "flags", "path", "repeat", "volume", "type", "x", "y", "radius", "easing"]

/-- Note required dataclass fields (scaler.py lines 103-115). -/
def Note.requiredFields : List String :=
  ["_id", "flags", "entryId", "x", "y", "icon", "iconSize", "iconTint",
   "text", "fontFamily", "fontSize", "textAnchor", "textColor"]

/-- Drawing required dataclass fields (scaler.py lines 148-173). -/
def Drawing.requiredFields : List String :=
  ["_id", "flags", "type", "author", "x", "y", "width", "height", "rotation",
   "z", "hidden", "locked", "points", "bezierFactor", "fillType", "fillColor",
   "fillAlpha", "strokeWidth", "strokeColor", "strokeAlpha", "texture",
   "text", "fontFamily", "fontSize", "textColor", "textAlpha"]

/-- The Scene object exactly as Scene.create builds it: every top-level
field is scene_data.get(key) — an Option with no validation, since a
missing key silently becomes None — and each entity collection is the
list of raw keyword maps accepted by its dataclass. -/
structure SceneRaw where
  _id : Option JVal
  name : Option JVal
  folder : Option JVal
  sort : Option JVal
  flags : Option JVal
  description : Option JVal
  navigation : Option JVal
  nav_order : Option JVal
  nav_name : Option JVal
  active : Option JVal
  initial : Option JVal
  img : Option JVal
  thumb : Option JVal
  width : Option JVal
  height : Option JVal
  padding : Option JVal
  background_color : Option JVal
  tiles : Option JVal
  grid_type : Option JVal
  grid : Option JVal
  shift_x : Option JVal
  shift_y : Option JVal
  grid_color : Option JVal
  grid_alpha : Option JVal
  grid_distance : Option JVal
  grid_units : Option JVal
  tokens : List (List (String × JVal))
  walls : List (List (String × JVal))
  token_vision : Option JVal
  fog_exploration : Option JVal
  lights : List (List (String × JVal))
  global_light : Option JVal
  global_light_threshold : Option JVal
  darkness : Option JVal
  playlist : Option JVal
  sounds : List (List (String × JVal))
  templates : Option JVal
  journal : Option JVal
  notes : List (List (String × JVal))
  weather : Option JVal
  drawings : List (List (String × JVal))
  size : Option JVal

/-- Scene.create (scaler.py lines 323-368) over a parsed document:
reads every top-level field with .get (missing keys become None — no
validation, no MalformedSceneError), and builds the six entity lists
with dataclass keyword calls, the only constructions that can fail
(with TypeError). -/
def Scene.createRaw (scene_data : List (String × JVal)) : Except PyError SceneRaw := do
  let tokens ← parseEntityList Token.requiredFields Token.optionalFields
    (getKey scene_data "tokens")
  let walls ← parseEntityList Wall.requiredFields Wall.optionalFields
    (getKey scene_data "walls")
  let lights ← parseEntityList Light.requiredFields Light.optionalFields
    (getKey scene_data "lights")
  let sounds ← parseEntityList Sound.requiredFields []
    (getKey scene_data "sounds")
  let notes ← parseEntityList Note.requiredFields []
    (getKey scene_data "notes")
  let drawings ← parseEntityList Drawing.requiredFields []
    (getKey scene_data "drawings")
  return {
    _id := getKey scene_data "_id"
    name := getKey scene_data "name"
    folder := getKey scene_data "folder"
    sort := getKey scene_data "sort"
    flags := getKey scene_data "flags"
    description := getKey scene_data "description"
    navigation := getKey scene_data "navigation"
    nav_order := getKey scene_data "navOrder"
    nav_name := getKey scene_data "navName"
    active := getKey scene_data "active"
    initial := getKey scene_data "initial"
    img := getKey scene_data "img"
    thumb := getKey scene_data "thumb"
    width := getKey scene_data "width"
    height := getKey scene_data "height"
    padding := getKey scene_data "padding"
    background_color := getKey scene_data "backgroundColor"
    tiles := getKey scene_data "tiles"
    grid_type := getKey scene_data "gridType"
    grid := getKey scene_data "grid"
    shift_x := getKey scene_data "shiftX"
    shift_y := getKey scene_data "shiftY"
    grid_color := getKey scene_data "gridColor"
    grid_alpha := getKey scene_data "gridAlpha"
    grid_distance := getKey scene_data "gridDistance"
    grid_units := getKey scene_data "gridUnits"
    tokens := tokens
    walls := walls
    token_vision := getKey scene_data "tokenVision"
    fog_exploration := getKey scene_data "fogExploration"
    lights := lights
    global_light := getKey scene_data "globalLight"
    global_light_threshold := getKey scene_data "globalLightThreshold"
    darkness := getKey scene_data "darkness"
    playlist := getKey scene_data "playlist"
    sounds := sounds
    templates := getKey scene_data "templates"
    journal := getKey scene_data "journal"
    notes := notes
    weather := getKey scene_data "weather"
    drawings := drawings
    size := getKey scene_data "size" }

/-- The Python dict literal built by Scene.to_json (scaler.py lines
464-507), one field per output key, before orjson serializes it.  The
JSON-string encoding step is mechanical and out of scope (spec section 1);
which scene field lands under which output key is fully captured here.
Its navigation key has type String because the source assigns
self.description to it. -/
structure OutputDict where
  _id : String
  name : String
  folder : String
  sort : ℤ
  flags : JVal
  description : String
  navigation : String
  navOrder : ℤ
  navName : String
  active : Bool
  initial : JVal
  img : String
  thumb : String
  width : ℤ
  height : ℤ
  padding : ℤ
  backgroundColor : String
  tiles : List JVal
  gridType : ℤ
  grid : ℤ
  shiftX : ℤ
  shiftY : ℤ
  gridColor : String
  gridAlpha : ℚ
  gridDistance : ℤ
  gridUnits : String
  tokens : List Token
  walls : List Wall
  tokenVision : Bool
  fogExploration : Bool
  lights : List Light
  globalLight : Bool
  globalLightThreshold : Option ℚ
  darkness : ℚ
  playlist : String
  sounds : List Sound
  templates : List JVal
  journal : String
  notes : List Note
  weather : String
  drawings : List Drawing
  size : Option JVal

/-- Scene.to_json (scaler.py lines 463-508): builds the output dict.
Line 471 of the source assigns self.description to the navigation key. -/
def Scene.to_json (self : Scene) : OutputDict :=
  { _id := self._id
    name := self.name
    folder := self.folder
    sort := self.sort
    flags := self.flags
    description := self.description
    navigation := self.description
    navOrder := self.nav_order
    navName := self.nav_name
    active := self.active
    initial := self.initial
    img := self.img
    thumb := self.thumb
    width := self.width
    height := self.height
    padding := self.padding
    backgroundColor := self.background_color
    tiles := self.tiles
    gridType := self.grid_type
    grid := self.grid
    shiftX := self.shift_x
    shiftY := self.shift_y
    gridColor := self.grid_color
    gridAlpha := self.grid_alpha
    gridDistance := self.grid_distance
    gridUnits := self.grid_units
    tokens := self.tokens
    walls := self.walls
    tokenVision := self.token_vision
    fogExploration := self.fog_exploration
    lights := self.lights
    globalLight := self.global_light
    globalLightThreshold := self.global_light_threshold
    darkness := self.darkness
    playlist := self.playlist
    sounds := self.sounds
    templates := self.templates
    journal := self.journal
    notes := self.notes
    weather := self.weather
    drawings := self.drawings
    size := self.size }

/-- Modelled from the spec: the JSON parsing capability is an external
collaborator (spec section 1), so the bytes of an archive entry are
represented by the outcome of feeding them to Scene.from_json_string —
a blob that is not JSON, bytes that raise while Scene.create runs, or a
well-formed scene document. -/
inductive BundleEntry where
  | blob (bytes : String) : BundleEntry
  | badScene (err : PyError) : BundleEntry
  | sceneDoc (s : Scene) : BundleEntry

/-- Scene.from_json_string (scaler.py lines 459-461): orjson.loads of a
non-JSON blob raises JSONDecodeError, and Scene.create propagates the
TypeError of a malformed entity record; a well-formed document yields
the Scene. -/
def Scene.from_json_string : BundleEntry → Except PyError Scene
  | BundleEntry.blob _ => .error .jsonDecodeError
  | BundleEntry.badScene err => .error err
  | BundleEntry.sceneDoc s => .ok s

/-- Splits a character list at the slash separators, yielding the
components of a POSIX path. -/
def splitSlash : List Char → List (List Char)
  | [] => [[]]
  | c :: rest =>
      match splitSlash rest with
      | [] => [[c]]
      | comp :: comps => if c = '/' then [] :: comp :: comps else (c :: comp) :: comps

/-- pathlib Path(p).match with the pattern for scene JSON entries
(scaler.py line 526): the pattern is relative, so it is matched against
the rightmost components — the final component must end in .json and its
parent component must be the scene directory. -/
def pathMatchesScene (p : String) : Bool :=
  match (splitSlash p.toList).reverse with
  | fname :: dirname :: _ =>
      dirname == "scene".toList && ".json".toList.isSuffixOf fname
  | _ => false

/-- One entry of the output archive: a pass-through copy of the input
entry bytes, or a serialized scaled scene. -/
inductive OutEntry where
  | passthrough (e : BundleEntry) : OutEntry
  | sceneOut (d : OutputDict) : OutEntry

/-- What the file at the output path holds: the verbatim copy made by
copyfile, or a zip archive freshly written by ZipFile in write mode
(which truncates whatever the path held when it is opened). -/
inductive OutputFileState where
  | verbatimCopy (input : List (String × BundleEntry)) : OutputFileState
  | zipArchive (entries : List (String × OutEntry)) : OutputFileState

/-- The entry loop of AdventureBundle.perform_scaling (scaler.py lines
522-531): scene-path entries are parsed and held by path, every other
entry is written through to the output zip immediately.  The result
carries the entries written so far even on failure, because an exception
propagates out of the with-block, which closes the half-written output
zip. -/
def AdventureBundle.processEntries :
    List (String × BundleEntry) → List (String × OutEntry) → List (String × Scene) →
    Except PyError (List (String × Scene)) × List (String × OutEntry)
  | [], written, scenes => (.ok scenes, written)
  | (path, e) :: rest, written, scenes =>
    if pathMatchesScene path then
      match Scene.from_json_string e with
      | .error err => (.error err, written)
      | .ok sc => AdventureBundle.processEntries rest written (scenes ++ [(path, sc)])
    else
      AdventureBundle.processEntries rest (written ++ [(path, .passthrough e)]) scenes

/-- AdventureBundle.scale_scenes (scaler.py lines 537-539): scales every
held scene. -/
def AdventureBundle.scale_scenes (scenes : List (String × Scene)) (scale : ℚ) :
    List (String × Scene) :=
  scenes.map (fun p => (p.1, p.2.scale_scene scale))

/-- AdventureBundle.perform_scaling (scaler.py lines 516-535) as a map
from the input archive to the final state of the output path together
with the run outcome.  Line 519 copies the input verbatim to the output
path, but line 520 immediately opens the output path with ZipFile in
write mode, which truncates it: from then on the output is the new
archive being written, and a mid-stream failure leaves it holding only
the pass-through entries written before the failure. -/
def AdventureBundle.perform_scaling (input : List (String × BundleEntry)) (scale : ℚ) :
    Except PyError Unit × OutputFileState :=
  match AdventureBundle.processEntries input [] [] with
  | (.error err, written) => (.error err, .zipArchive written)
  | (.ok scenes, written) =>
      let scaled := AdventureBundle.scale_scenes scenes scale
      (.ok (), .zipArchive (written ++ scaled.map (fun p => (p.1, .sceneOut p.2.to_json))))

/-- An empty JSON object, reused as the opaque payload of the examples. -/
def emptyObj : JVal := JVal.obj []

/-- A concrete token at (125, 25), the position of the worked example in
the spec. -/
def exampleToken : Token :=
  { _id := "tok1", flags := emptyObj, name := "goblin", displayName := 0,
    img := "tokens/goblin.png", tint := none, width := 1, height := 1,
    scale := 1, x := 125, y := 25, elevation := 0, lockRotation := false,
    rotation := 0, effects := [], hidden := false, vision := false,
    dimSight := 0, brightSight := 0, dimLight := 0, brightLight := 0,
    sightAngle := 360, lightAngle := 360, lightAlpha := 1,
    lightAnimation := emptyObj, actorId := "actor1", actorLink := false,
    actorData := emptyObj, disposition := 0, displayBars := 0,
    bar1 := emptyObj, bar2 := emptyObj,
    mirrorX := none, mirrorY := none, lightColor := none }

/-- A concrete wall with endpoints (0, 0) and (100, 100), the wall of the
worked example in the spec. -/
def exampleWall : Wall :=
  { _id := "wall1", flags := emptyObj, c := [0, 0, 100, 100],
    move := 1, sense := 1, door := 0, ds := 0, dir := some 0 }

/-- A concrete scene with width 1000 and grid shift (50, 50), so its
origin is (25, 25): the scene of the worked example in the spec. -/
def exampleScene : Scene :=
  { _id := "scene1", name := "Example", folder := "", sort := 0,
    flags := emptyObj, description := "a sample scene", navigation := false,
    nav_order := 0, nav_name := "", active := false, initial := emptyObj,
    img := "background.png", thumb := "thumb.png", width := 1000,
    height := 800, padding := 0, background_color := "#000000", tiles := [],
    grid_type := 1, grid := 100, shift_x := 50, shift_y := 50,
    grid_color := "#000000", grid_alpha := 1, grid_distance := 5,
    grid_units := "ft", tokens := [exampleToken], walls := [exampleWall],
    token_vision := false, fog_exploration := false, lights := [],
    global_light := false, global_light_threshold := none, darkness := 0,
    playlist := "", sounds := [], templates := [], journal := "",
    notes := [], weather := "", drawings := [], size := none }


/-- Projection of a Token to its non-positional fields: the position is
replaced by a fixed placeholder, so equality of clearPosition results
says exactly that every field other than x and y agrees. -/
def Token.clearPosition (t : Token) : Token := { t with x := 0, y := 0 }

/-- Projection of a Wall to its non-geometric fields (the c array is the
positional data of a wall). -/
def Wall.clearPosition (w : Wall) : Wall := { w with c := [] }

/-- Projection of a Light to its non-positional fields. -/
def Light.clearPosition (l : Light) : Light := { l with x := 0, y := 0 }

/-- Projection of a Sound to its non-positional fields. -/
def Sound.clearPosition (s : Sound) : Sound := { s with x := 0, y := 0 }

/-- Projection of a Note to its non-positional fields. -/
def Note.clearPosition (n : Note) : Note := { n with x := 0, y := 0 }

/-- Projection of a Drawing to its non-positional fields: width, height
and everything else except the anchor point. -/
def Drawing.clearPosition (d : Drawing) : Drawing := { d with x := 0, y := 0 }

/-- A concrete input archive whose second entry is a scene document that
fails to parse, with a further pass-through entry behind it. -/
def failingArchive : List (String × BundleEntry) :=
  [("img/map.png", BundleEntry.blob "PNG"),
   ("scene/bad.json", BundleEntry.badScene (PyError.typeError "missing keyword argument")),
   ("img/tiles.png", BundleEntry.blob "TILES")]

/-- Whether a Python call completed without raising. -/
def exceptOk {e a : Type} : Except e a → Bool
  | Except.ok _ => true
  | Except.error _ => false

/-! ### Shared helper lemmas -/

theorem quantizeHalfEven_intCast (n : ℤ) : quantizeHalfEven (n : ℚ) = n := by
  unfold quantizeHalfEven
  rw [Int.floor_intCast]
  norm_num

theorem quantizeHalfEven_add_half (n : ℤ) :
    quantizeHalfEven ((n : ℚ) + 1/2) = if n % 2 = 0 then n else n + 1 := by
  have hfloor : ⌊(1/2 : ℚ)⌋ = 0 := by norm_num
  have hf : ⌊(n : ℚ) + 1/2⌋ = n := by
    rw [add_comm, Int.floor_add_int, hfloor, zero_add]
  unfold quantizeHalfEven
  rw [hf]
  have hr : ((n : ℚ) + 1/2) - (n : ℚ) = 1/2 := by ring
  rw [hr, if_neg (lt_irrefl _), if_neg (lt_irrefl _)]

/-- Normal form of Scene.scale_scene: a single record update of the input
scene, obtained by unfolding the six sequential collection updates. -/
theorem scale_scene_eq (s : Scene) (scale : ℚ) :
    s.scale_scene scale =
      { s with
          tokens := s.tokens.map (Scene.scale_one_token s.get_origin scale),
          walls := s.walls.map (Scene.scale_one_wall s.get_origin scale),
          lights := s.lights.map (Scene.scale_one_light s.get_origin scale),
          sounds := s.sounds.map (Scene.scale_one_sound s.get_origin scale),
          notes := s.notes.map (Scene.scale_one_note s.get_origin scale),
          drawings := s.drawings.map (Scene.scale_one_drawing s.get_origin scale),
          width := quantizeHalfEven ((s.width : ℚ) * scale),
          height := quantizeHalfEven ((s.height : ℚ) * scale),
          grid := quantizeHalfEven ((s.grid : ℚ) * scale),
          shift_x := quantizeHalfEven ((s.shift_x : ℚ) * scale),
          shift_y := quantizeHalfEven ((s.shift_y : ℚ) * scale) } := by
  simp only [Scene.scale_scene, Scene._scale_tokens, Scene._scale_walls,
    Scene._scale_lights, Scene._scale_sounds, Scene._scale_notes,
    Scene._scale_drawings]

theorem scale_scene_tokens_eq (s : Scene) (scale : ℚ) :
    (s.scale_scene scale).tokens = s.tokens.map (Scene.scale_one_token s.get_origin scale) := by rw [scale_scene_eq]

theorem scale_scene_walls_eq (s : Scene) (scale : ℚ) :
    (s.scale_scene scale).walls = s.walls.map (Scene.scale_one_wall s.get_origin scale) := by rw [scale_scene_eq]

theorem scale_scene_lights_eq (s : Scene) (scale : ℚ) :
    (s.scale_scene scale).lights = s.lights.map (Scene.scale_one_light s.get_origin scale) := by rw [scale_scene_eq]

theorem scale_scene_sounds_eq (s : Scene) (scale : ℚ) :
    (s.scale_scene scale).sounds = s.sounds.map (Scene.scale_one_sound s.get_origin scale) := by rw [scale_scene_eq]

theorem scale_scene_notes_eq (s : Scene) (scale : ℚ) :
    (s.scale_scene scale).notes = s.notes.map (Scene.scale_one_note s.get_origin scale) := by rw [scale_scene_eq]

theorem scale_scene_drawings_eq (s : Scene) (scale : ℚ) :
    (s.scale_scene scale).drawings = s.drawings.map (Scene.scale_one_drawing s.get_origin scale) := by rw [scale_scene_eq]

theorem scale_scene_width_eq (s : Scene) (scale : ℚ) :
    (s.scale_scene scale).width = quantizeHalfEven ((s.width : ℚ) * scale) := by rw [scale_scene_eq]

theorem scale_scene_height_eq (s : Scene) (scale : ℚ) :
    (s.scale_scene scale).height = quantizeHalfEven ((s.height : ℚ) * scale) := by rw [scale_scene_eq]

theorem scale_scene_grid_eq (s : Scene) (scale : ℚ) :
    (s.scale_scene scale).grid = quantizeHalfEven ((s.grid : ℚ) * scale) := by rw [scale_scene_eq]

theorem scale_scene_shift_x_eq (s : Scene) (scale : ℚ) :
    (s.scale_scene scale).shift_x = quantizeHalfEven ((s.shift_x : ℚ) * scale) := by rw [scale_scene_eq]

theorem scale_scene_shift_y_eq (s : Scene) (scale : ℚ) :
    (s.scale_scene scale).shift_y = quantizeHalfEven ((s.shift_y : ℚ) * scale) := by rw [scale_scene_eq]

/-! ### Claims -/

/-- C1: Point.translate_point returns O*(1-s) + P*s component-wise in
exact arithmetic; concretely, the example scene with grid shift (50, 50)
has origin (25, 25) and its token at (125, 25), scaled by 2, ends at
(225, 25). -/
theorem C1_translate_point_dilation :
    (∀ (P O : Point) (s : ℚ),
        P.translate_point O s =
          Point.mk (O.x * (1 - s) + P.x * s) (O.y * (1 - s) + P.y * s))
    ∧ exampleScene.get_origin = Point.mk 25 25
    ∧ (exampleScene.scale_scene 2).tokens.map (fun t => (t.x, t.y)) = [(225, 25)] := by
  refine ⟨fun P O s => rfl, ?_, ?_⟩
  · show Point.mk ((((50 : ℤ) : ℚ)) * (1/2)) ((((50 : ℤ) : ℚ)) * (1/2)) = Point.mk 25 25
    norm_num
  · rw [scale_scene_tokens_eq]
    simp only [exampleScene, exampleToken, List.map_cons, List.map_nil,
      Scene.scale_one_token, Point.get_point_from_token, Point.translate_point,
      Point.translate_point_static, Point.integer_x, Point.integer_y,
      Scene.get_origin]
    norm_num [quantizeHalfEven]

/-- C2: the dilation origin is (shiftX*0.5, shiftY*0.5) — half the grid
shift, not the canvas origin (0,0) — and scale_scene scales all six
entity collections about the single origin computed from the
pre-scaling shift values of the input scene. -/
theorem C2_origin_half_shift_used_everywhere :
    (∀ (s : Scene) (scale : ℚ),
        s.get_origin = Point.mk ((s.shift_x : ℚ) * (1/2)) ((s.shift_y : ℚ) * (1/2))
        ∧ (s.scale_scene scale).tokens = s.tokens.map (Scene.scale_one_token s.get_origin scale)
        ∧ (s.scale_scene scale).walls = s.walls.map (Scene.scale_one_wall s.get_origin scale)
        ∧ (s.scale_scene scale).lights = s.lights.map (Scene.scale_one_light s.get_origin scale)
        ∧ (s.scale_scene scale).sounds = s.sounds.map (Scene.scale_one_sound s.get_origin scale)
        ∧ (s.scale_scene scale).notes = s.notes.map (Scene.scale_one_note s.get_origin scale)
        ∧ (s.scale_scene scale).drawings = s.drawings.map (Scene.scale_one_drawing s.get_origin scale))
    ∧ exampleScene.get_origin ≠ Point.mk 0 0 := by
  constructor
  · intro s scale
    exact ⟨rfl, scale_scene_tokens_eq s scale, scale_scene_walls_eq s scale,
      scale_scene_lights_eq s scale, scale_scene_sounds_eq s scale,
      scale_scene_notes_eq s scale, scale_scene_drawings_eq s scale⟩
  · intro h
    have hx : (((50 : ℤ) : ℚ)) * (1/2) = 0 := congrArg Point.x h
    norm_num at hx

/-- C3: after scale_scene the five scalar sizing fields width, height,
grid, shiftX, shiftY each equal round(original * s) under the single
rounding rule used throughout (quantize to an integer, the same rule
Point.integer_x and Point.integer_y apply); width 1000 scaled by 2
becomes 2000. -/
theorem C3_scalar_fields_round_scaled :
    (∀ (s : Scene) (scale : ℚ),
        (s.scale_scene scale).width = quantizeHalfEven ((s.width : ℚ) * scale)
        ∧ (s.scale_scene scale).height = quantizeHalfEven ((s.height : ℚ) * scale)
        ∧ (s.scale_scene scale).grid = quantizeHalfEven ((s.grid : ℚ) * scale)
        ∧ (s.scale_scene scale).shift_x = quantizeHalfEven ((s.shift_x : ℚ) * scale)
        ∧ (s.scale_scene scale).shift_y = quantizeHalfEven ((s.shift_y : ℚ) * scale))
    ∧ (∀ p : Point, p.integer_x = quantizeHalfEven p.x ∧ p.integer_y = quantizeHalfEven p.y)
    ∧ (exampleScene.scale_scene 2).width = 2000 := by
  refine ⟨fun s scale => ⟨scale_scene_width_eq s scale, scale_scene_height_eq s scale,
    scale_scene_grid_eq s scale, scale_scene_shift_x_eq s scale,
    scale_scene_shift_y_eq s scale⟩, fun p => ⟨rfl, rfl⟩, ?_⟩
  rw [scale_scene_width_eq]
  show quantizeHalfEven ((((1000 : ℤ) : ℚ)) * 2) = 2000
  norm_num [quantizeHalfEven]

/-- C5: Scene.to_json writes the description field into the navigation
output key, so the serialized navigation value equals description, and
the boolean navigation field of the scene has no influence on the
serialized document at all. -/
theorem C5_navigation_key_gets_description :
    ∀ (s : Scene),
      (s.to_json).navigation = s.description
      ∧ ∀ (b : Bool), Scene.to_json { s with navigation := b } = s.to_json :=
  fun s => ⟨rfl, fun b => rfl⟩

/-- C7: scaling rebuilds each wall c array from the two endpoints
(c[0], c[1]) and (c[2], c[3]) scaled independently, in the order
[x1, y1, x2, y2]; the example wall with endpoints (0,0) and (100,100),
scaled by 2 about origin (0,0), gets c = [0, 0, 200, 200]. -/
theorem C7_wall_c_rebuilt_from_endpoints :
    (∀ (s : Scene) (scale : ℚ),
        (s.scale_scene scale).walls = s.walls.map (Scene.scale_one_wall s.get_origin scale))
    ∧ (∀ (origin : Point) (scale : ℚ) (w : Wall) (x1 y1 x2 y2 : ℤ),
        w.c = [x1, y1, x2, y2] →
        (Scene.scale_one_wall origin scale w).c =
          [((Point.mk (x1 : ℚ) (y1 : ℚ)).translate_point origin scale).integer_x,
           ((Point.mk (x1 : ℚ) (y1 : ℚ)).translate_point origin scale).integer_y,
           ((Point.mk (x2 : ℚ) (y2 : ℚ)).translate_point origin scale).integer_x,
           ((Point.mk (x2 : ℚ) (y2 : ℚ)).translate_point origin scale).integer_y])
    ∧ (Scene.scale_one_wall (Point.mk 0 0) 2 exampleWall).c = [0, 0, 200, 200] := by
  refine ⟨fun s scale => scale_scene_walls_eq s scale, ?_, ?_⟩
  · intro origin scale w x1 y1 x2 y2 hc
    simp only [Scene.scale_one_wall, Point.get_points_from_walls, hc]
    rfl
  · simp only [Scene.scale_one_wall, Point.get_points_from_walls, exampleWall,
      Point.translate_point, Point.translate_point_static, Point.integer_x,
      Point.integer_y]
    norm_num [quantizeHalfEven]

/-- C7 witness: the general endpoint lemma applied to the concrete
example wall with origin (0,0) and ratio 2. -/
theorem C7_wall_c_rebuilt_from_endpoints_witness :
    (Scene.scale_one_wall (Point.mk 0 0) 2 exampleWall).c =
      [((Point.mk ((0 : ℤ) : ℚ) ((0 : ℤ) : ℚ)).translate_point (Point.mk 0 0) 2).integer_x,
       ((Point.mk ((0 : ℤ) : ℚ) ((0 : ℤ) : ℚ)).translate_point (Point.mk 0 0) 2).integer_y,
       ((Point.mk ((100 : ℤ) : ℚ) ((100 : ℤ) : ℚ)).translate_point (Point.mk 0 0) 2).integer_x,
       ((Point.mk ((100 : ℤ) : ℚ) ((100 : ℤ) : ℚ)).translate_point (Point.mk 0 0) 2).integer_y] :=
  C7_wall_c_rebuilt_from_endpoints.2.1 (Point.mk 0 0) 2 exampleWall 0 0 100 100 rfl

/-- C8: scaling an entity replaces only its positional fields (x and y,
or c for a wall); every other field of the scaled copy equals the
original, and in particular a Drawing keeps its width and height. -/
theorem C8_scaling_touches_only_positions :
    ∀ (origin : Point) (scale : ℚ),
      (∀ t : Token, (Scene.scale_one_token origin scale t).clearPosition = t.clearPosition)
      ∧ (∀ w : Wall, (Scene.scale_one_wall origin scale w).clearPosition = w.clearPosition)
      ∧ (∀ l : Light, (Scene.scale_one_light origin scale l).clearPosition = l.clearPosition)
      ∧ (∀ s : Sound, (Scene.scale_one_sound origin scale s).clearPosition = s.clearPosition)
      ∧ (∀ n : Note, (Scene.scale_one_note origin scale n).clearPosition = n.clearPosition)
      ∧ (∀ d : Drawing,
          (Scene.scale_one_drawing origin scale d).clearPosition = d.clearPosition
          ∧ (Scene.scale_one_drawing origin scale d).width = d.width
          ∧ (Scene.scale_one_drawing origin scale d).height = d.height) :=
  fun origin scale =>
    ⟨fun t => rfl, fun w => rfl, fun l => rfl, fun s => rfl, fun n => rfl,
     fun d => ⟨rfl, rfl, rfl⟩⟩

/-- C9: scale_scene preserves the length and the element order of all six
entity collections: position i of each scaled collection holds the scaled
copy of position i of the input collection, and nothing is added or
removed. -/
theorem C9_counts_and_order_preserved :
    ∀ (s : Scene) (scale : ℚ),
      ((s.scale_scene scale).tokens.length = s.tokens.length
       ∧ (s.scale_scene scale).walls.length = s.walls.length
       ∧ (s.scale_scene scale).lights.length = s.lights.length
       ∧ (s.scale_scene scale).sounds.length = s.sounds.length
       ∧ (s.scale_scene scale).notes.length = s.notes.length
       ∧ (s.scale_scene scale).drawings.length = s.drawings.length)
      ∧ ∀ i : ℕ,
          (s.scale_scene scale).tokens.get? i
            = (s.tokens.get? i).map (Scene.scale_one_token s.get_origin scale)
          ∧ (s.scale_scene scale).walls.get? i
            = (s.walls.get? i).map (Scene.scale_one_wall s.get_origin scale)
          ∧ (s.scale_scene scale).lights.get? i
            = (s.lights.get? i).map (Scene.scale_one_light s.get_origin scale)
          ∧ (s.scale_scene scale).sounds.get? i
            = (s.sounds.get? i).map (Scene.scale_one_sound s.get_origin scale)
          ∧ (s.scale_scene scale).notes.get? i
            = (s.notes.get? i).map (Scene.scale_one_note s.get_origin scale)
          ∧ (s.scale_scene scale).drawings.get? i
            = (s.drawings.get? i).map (Scene.scale_one_drawing s.get_origin scale) := by
  intro s scale
  constructor
  · rw [scale_scene_tokens_eq, scale_scene_walls_eq, scale_scene_lights_eq,
      scale_scene_sounds_eq, scale_scene_notes_eq, scale_scene_drawings_eq]
    simp [List.length_map]
  · intro i
    rw [scale_scene_tokens_eq, scale_scene_walls_eq, scale_scene_lights_eq,
      scale_scene_sounds_eq, scale_scene_notes_eq, scale_scene_drawings_eq]
    simp [List.get?_map]

/-- C10: integer rounding uses banker's rounding: a coordinate exactly
halfway between two integers rounds to the even neighbour (2.5 to 2,
3.5 to 4), and the five scalar sizing fields of scale_scene go through
the same quantize rule. -/
theorem C10_bankers_rounding :
    (∀ (n : ℤ) (p : Point), p.x = (n : ℚ) + 1/2 →
        p.integer_x = if n % 2 = 0 then n else n + 1)
    ∧ (∀ (n : ℤ) (p : Point), p.y = (n : ℚ) + 1/2 →
        p.integer_y = if n % 2 = 0 then n else n + 1)
    ∧ Point.integer_x (Point.mk (5/2) 0) = 2
    ∧ Point.integer_x (Point.mk (7/2) 0) = 4
    ∧ (∀ (s : Scene) (scale : ℚ),
        (s.scale_scene scale).width = quantizeHalfEven ((s.width : ℚ) * scale)
        ∧ (s.scale_scene scale).height = quantizeHalfEven ((s.height : ℚ) * scale)
        ∧ (s.scale_scene scale).grid = quantizeHalfEven ((s.grid : ℚ) * scale)
        ∧ (s.scale_scene scale).shift_x = quantizeHalfEven ((s.shift_x : ℚ) * scale)
        ∧ (s.scale_scene scale).shift_y = quantizeHalfEven ((s.shift_y : ℚ) * scale)) := by
  refine ⟨?_, ?_, ?_, ?_, fun s scale => ⟨scale_scene_width_eq s scale,
    scale_scene_height_eq s scale, scale_scene_grid_eq s scale,
    scale_scene_shift_x_eq s scale, scale_scene_shift_y_eq s scale⟩⟩
  · intro n p hp
    unfold Point.integer_x
    rw [hp, quantizeHalfEven_add_half]
  · intro n p hp
    unfold Point.integer_y
    rw [hp, quantizeHalfEven_add_half]
  · norm_num [Point.integer_x, quantizeHalfEven]
  · norm_num [Point.integer_x, quantizeHalfEven]

/-- C10 witness: the halfway rule applied at the concrete point with
x = 2 + 1/2, whose even neighbour is 2. -/
theorem C10_bankers_rounding_witness :
    Point.integer_x (Point.mk (((2 : ℤ) : ℚ) + 1/2) 0)
      = if (2 : ℤ) % 2 = 0 then (2 : ℤ) else 2 + 1 :=
  C10_bankers_rounding.1 2 (Point.mk (((2 : ℤ) : ℚ) + 1/2) 0) rfl

/-- C4: at the concrete failing archive, perform_scaling aborts on the
malformed scene entry and the output path is left holding a
freshly-started partial archive containing only the pass-through entry
processed before the failure — not the full verbatim copy of the input,
because opening the output with ZipFile in write mode (line 520)
truncates the copy made by copyfile (line 519).  The last conjunct shows
the copy never survives on any input: the final output is always the
newly written archive. -/
theorem C4_safety_copy_truncated :
    AdventureBundle.perform_scaling failingArchive 2
      = (Except.error (PyError.typeError "missing keyword argument"),
         OutputFileState.zipArchive
           [("img/map.png", OutEntry.passthrough (BundleEntry.blob "PNG"))])
    ∧ (AdventureBundle.perform_scaling failingArchive 2).2
        ≠ OutputFileState.verbatimCopy failingArchive
    ∧ (∀ (input : List (String × BundleEntry)) (scale : ℚ),
        ∃ entries, (AdventureBundle.perform_scaling input scale).2
          = OutputFileState.zipArchive entries) := by
  refine ⟨rfl, ?_, ?_⟩
  · have h2 : (AdventureBundle.perform_scaling failingArchive 2).2
        = OutputFileState.zipArchive
            [("img/map.png", OutEntry.passthrough (BundleEntry.blob "PNG"))] := rfl
    rw [h2]
    intro h
    exact OutputFileState.noConfusion h
  · intro input scale
    rcases h : AdventureBundle.processEntries input [] [] with ⟨e | v, written⟩
    · exact ⟨written, by simp only [AdventureBundle.perform_scaling, h]⟩
    · exact ⟨written ++ (AdventureBundle.scale_scenes v scale).map
        (fun p => (p.1, OutEntry.sceneOut p.2.to_json)),
        by simp only [AdventureBundle.perform_scaling, h]⟩

/-- C6 counterexample: the empty scene document is missing every
required field (width among them), yet Scene.create succeeds, returning
a scene whose fields are all None, instead of failing with a validation
error. -/
theorem C6_counterexample_create_accepts_empty_doc :
    exceptOk (Scene.createRaw []) = true ∧ getKey [] "width" = none :=
  ⟨rfl, rfl⟩

/-- C6 amended: Scene.create performs no validation of top-level scene
fields — any document whose six entity keys are absent succeeds, with
every missing field silently stored as None; the only failing path is a
malformed entity record, which raises a plain TypeError (the code
defines no MalformedSceneError). -/
theorem C6_amended_create_never_validates :
    (∀ d : List (String × JVal),
        getKey d "tokens" = none → getKey d "walls" = none →
        getKey d "lights" = none → getKey d "sounds" = none →
        getKey d "notes" = none → getKey d "drawings" = none →
        exceptOk (Scene.createRaw d) = true)
    ∧ Scene.createRaw [("tokens", JVal.arr [JVal.obj []])]
        = Except.error (PyError.typeError "missing or unexpected keyword argument") := by
  constructor
  · intro d h1 h2 h3 h4 h5 h6
    unfold Scene.createRaw
    rw [h1, h2, h3, h4, h5, h6]
    rfl
  · rfl

/-- C6 witness: a document holding only a name succeeds, every other
top-level field silently defaulting to None. -/
theorem C6_amended_create_never_validates_witness :
    exceptOk (Scene.createRaw [("name", JVal.str "Example")]) = true :=
  C6_amended_create_never_validates.1 [("name", JVal.str "Example")]
    rfl rfl rfl rfl rfl rfl
